import Mathlib

/-!
Shallow embedding of the Tykon TypeScript-to-Kotlin declaration transpiler
(src/utils.ts and src/generator.ts) in Lean 4.

Strings are modelled as `List Char` (named `Str`), which mirrors JavaScript
strings character by character and keeps every definition executable.
Values obtained from the external ts-morph parser (type texts, nullability
flags, symbol declaration lists, JSDoc contents) are modelled as input
attributes on the declaration records: the generator only ever reads them
through typed accessors.  In particular a member's `typeText` field stands
for `utils.findType(member.getType()).getText()`, which is computed by the
external type checker's `Type` objects.
-/

namespace Tykon

abbrev Str := List Char

/-- Literal brace / quote / backtick characters, written via code points so
that generated-output strings can stay readable. -/
def lbrace : Char := Char.ofNat 123

def rbrace : Char := Char.ofNat 125

def bquote : Char := Char.ofNat 96

def squote : Char := Char.ofNat 39

def dquote : Char := Char.ofNat 34

/-- JavaScript `trim` whitespace (ASCII subset actually produced by ts-morph). -/
def isWS (c : Char) : Bool := c = ' ' || c = '\t' || c = '\n' || c = '\r'

def trimL : Str → Str
  | [] => []
  | c :: cs => if isWS c then trimL cs else c :: cs

/-- JavaScript `String.prototype.trim`. -/
def trimWS (s : Str) : Str := trimL ((trimL s.reverse).reverse)

/-- JavaScript `String.prototype.startsWith`. -/
def startsW : Str → Str → Bool
  | _, [] => true
  | [], _ :: _ => false
  | c :: cs, p :: ps => c = p && startsW cs ps

/-- JavaScript `String.prototype.endsWith`. -/
def endsW (s p : Str) : Bool := startsW s.reverse p.reverse

/-- JavaScript `String.prototype.includes` for a substring. -/
def containsSub (s p : Str) : Bool :=
  match s with
  | [] => startsW [] p
  | _ :: rest => startsW s p || containsSub rest p

/-- Number of (possibly overlapping) occurrences of `p` in `s`; a measuring
helper for the theorems, not part of the source. -/
def countSub (s p : Str) : Nat :=
  match s with
  | [] => 0
  | _ :: rest => (if startsW s p then 1 else 0) + countSub rest p

/-- JavaScript `String.prototype.split` with a one-character separator. -/
def splitOnChar (sep : Char) : Str → List Str
  | [] => [[]]
  | c :: cs =>
    let r := splitOnChar sep cs
    if c = sep then [] :: r
    else
      match r with
      | [] => [[c]]
      | h :: t => (c :: h) :: t

/-- JavaScript `Array.prototype.join`. -/
def joinSep (sep : Str) : List Str → Str
  | [] => []
  | [x] => x
  | x :: xs => x ++ sep ++ joinSep sep xs

def jsIndexOfAux (x : Str) : Nat → List Str → Int
  | _, [] => -1
  | i, h :: t => if h = x then Int.ofNat i else jsIndexOfAux x (i + 1) t

/-- JavaScript `Array.prototype.indexOf` on arrays of strings. -/
def jsIndexOf (l : List Str) (x : Str) : Int := jsIndexOfAux x 0 l

/-- JavaScript `Array.prototype.lastIndexOf` on arrays of strings. -/
def jsLastIndexOf (l : List Str) (x : Str) : Int :=
  let r := jsIndexOf l.reverse x
  if r < 0 then -1 else Int.ofNat l.length - 1 - r

def idxOfCharAux (c : Char) : Nat → Str → Option Nat
  | _, [] => none
  | i, h :: t => if h = c then some i else idxOfCharAux c (i + 1) t

/-- Index of the last occurrence of character `c` in `s`. -/
def lastIdxOfChar (s : Str) (c : Char) : Option Nat :=
  match idxOfCharAux c 0 s.reverse with
  | none => none
  | some i => some (s.length - 1 - i)

/-- Everything after the last occurrence of `c` (the whole string if absent);
implements the JS `replace(/.*SEP/, '')` idiom. -/
def afterLastChar (s : Str) (c : Char) : Str :=
  match lastIdxOfChar s c with
  | none => s
  | some i => s.drop (i + 1)

def dedupFirstAux : List Str → List Str → List Str
  | _, [] => []
  | seen, h :: t =>
    if seen.contains h then dedupFirstAux seen t
    else h :: dedupFirstAux (h :: seen) t

/-- JavaScript `arr.filter((t, i) => arr.indexOf(t) === i)`: keep the first
occurrence of each element, preserving order. -/
def dedupFirst (l : List Str) : List Str := dedupFirstAux [] l

/-- JavaScript `String.prototype.replace` with a plain (non-regex) pattern:
replaces only the first occurrence. -/
def replaceFirstSub (s pat rep : Str) : Str :=
  match s with
  | [] => []
  | c :: rest =>
    if startsW s pat then rep ++ s.drop pat.length
    else c :: replaceFirstSub rest pat rep

def takeToStar : Str → Option Str
  | [] => none
  | c :: cs => if c = '*' then some cs else takeToStar cs

def stripStarSpansFuel : Nat → Str → Str
  | 0, s => s
  | _ + 1, [] => []
  | n + 1, c :: cs =>
    if c = '*' then
      match takeToStar cs with
      | some rest => stripStarSpansFuel n rest
      | none => c :: stripStarSpansFuel n cs
    else c :: stripStarSpansFuel n cs

/-- JavaScript `replace` with the global lazy regex that deletes every
star-to-star span (used to strip comment bodies when normalising method
signatures in `createMethods`). -/
def stripStarSpans (s : Str) : Str := stripStarSpansFuel (s.length + 1) s

def natToStr (n : Nat) : Str := Nat.toDigits 10 n

/-- Association-list lookup (JavaScript `Map.prototype.get`). -/
def lookupStr : List (Str × Str) → Str → Option Str
  | [], _ => none
  | (k, v) :: t, x => if k = x then some v else lookupStr t x

/-- Association-list insertion (JavaScript `Map.prototype.set`): replaces an
existing binding in place, otherwise appends. -/
def setAssoc : List (Str × Str) → Str → Str → List (Str × Str)
  | [], k, v => [(k, v)]
  | (k', v') :: t, k, v =>
    if k' = k then (k, v) :: t else (k', v') :: setAssoc t k v

/-- The reserved-word list `specialNames` from src/utils.ts. -/
def specialNames : List Str :=
  [ "as".data, "do".data, "while".data, "if".data, "else".data, "for".data,
    "in".data, "return".data, "break".data, "continue".data, "switch".data,
    "case".data, "throw".data, "try".data, "catch".data, "finally".data,
    "inline".data, "operator".data, "suspend".data, "dynamic".data,
    "object".data ]

/-- The TypeScript-to-Kotlin lookup table `types` from src/utils.ts. -/
def types : List (Str × Str) :=
  [ ("string".data, "String".data),
    ("number".data, "Double".data),
    ("bigint".data, "Long".data),
    ("boolean".data, "Boolean".data),
    ("any".data, "Any".data),
    ("object".data, "Any".data),
    ("void".data, "Unit".data),
    ("undefined".data, "Unit".data),
    ("null".data, "Unit".data),
    ("never".data, "Nothing".data),
    ("unknown".data, "Any".data),
    ("Int8Array".data, "ByteArray".data),
    ("Uint8Array".data, "ByteArray".data),
    ("Uint8Array<ArrayBuffer>".data, "ByteArray".data),
    ("Uint8Array<ArrayBufferLike>".data, "ByteArray".data),
    ("Uint8ClampedArray".data, "ByteArray".data),
    ("Int16Array".data, "ShortArray".data),
    ("Uint16Array".data, "ShortArray".data),
    ("Int32Array".data, "IntArray".data),
    ("Uint32Array".data, "IntArray".data),
    ("Float32Array".data, "FloatArray".data),
    ("Float64Array".data, "DoubleArray".data),
    ("this".data, "dynamic".data),
    ("Record".data, "Map".data),
    ("void | Promise<void>".data, "Unit".data),
    ("void | undefined".data, "Unit".data),
    ("ArrayBufferLike".data, "ArrayBuffer".data),
    ("ArrayBuffer | ArrayBufferView<ArrayBuffer>".data, "ArrayBuffer".data),
    ("ArrayBuffer | ArrayBufferView".data, "ArrayBuffer".data),
    ("Function".data, "Function<Unit>".data),
    ("AsyncIterableIterator".data, "AsyncIterator".data),
    ("IterableIterator".data, "Iterator".data) ]

/-- `innerTypes` from src/utils.ts: wrappers exported to their inner type. -/
def innerTypes : List Str := [ "Readonly".data, "Partial".data, "Required".data ]

/-- Mutable generator state: `currentConstants`, the `unnamedCounter`, and the
module-level `typeAliases` buffer from src/generator.ts. -/
structure GenState where
  constants : List (Str × Str)
  counter : Nat
  aliasBuf : List Str
deriving Repr, DecidableEq

def splitGenericsAux : Str → Str → Int → Bool → Char → List Str → List Str
  | [], current, _, _, _, result =>
    let cur := trimWS current.reverse
    if cur ≠ [] then result ++ [cur] else result
  | ch :: rest, current, depth, inString, stringChar, result =>
    if (ch = dquote || ch = squote) && !inString then
      splitGenericsAux rest (ch :: current) depth true ch result
    else if ch = stringChar && inString then
      splitGenericsAux rest (ch :: current) depth false stringChar result
    else if inString then
      splitGenericsAux rest (ch :: current) depth true stringChar result
    else if ch = '<' then
      splitGenericsAux rest (ch :: current) (depth + 1) inString stringChar result
    else if ch = '>' then
      splitGenericsAux rest (ch :: current) (depth - 1) inString stringChar result
    else if ch = ',' && depth = 0 then
      splitGenericsAux rest [] depth inString stringChar (result ++ [trimWS current.reverse])
    else
      splitGenericsAux rest (ch :: current) depth inString stringChar result

/-- `splitGenerics` from src/utils.ts: split a comma-separated list while
respecting `<...>` nesting and quoted strings. -/
def splitGenerics (input : Str) : List Str :=
  splitGenericsAux input [] 0 false ' ' []

def extractGenericPartsAux (orig : Str) : Nat → Str → Int → Int → Option (Str × Str)
  | _, [], _, _ => none
  | i, c :: rest, depth, start =>
    if c = '<' then
      extractGenericPartsAux orig (i + 1) rest (depth + 1)
        (if depth = 0 then Int.ofNat i else start)
    else if c = '>' then
      if depth - 1 = 0 then
        some (trimWS (orig.take (Int.toNat start)),
              trimWS ((orig.take i).drop (Int.toNat start + 1)))
      else extractGenericPartsAux orig (i + 1) rest (depth - 1) start
    else extractGenericPartsAux orig (i + 1) rest depth start

/-- `extractGenericParts` from src/utils.ts: base and argument text of the
first top-level `<...>` group. -/
def extractGenericParts (type : Str) : Option (Str × Str) :=
  extractGenericPartsAux type 0 type (0 : Int) (-1 : Int)

def findExtendsAux (t : Str) : Nat → Option Nat
  | 0 => none
  | n + 1 =>
    let i := n + 1
    if startsW (t.drop i) ("extends".data) && isWS (t.getD (i - 1) 'x')
        && isWS (t.getD (i + 7) 'x') && trimWS (t.take i) ≠ [] then
      some i
    else findExtendsAux t n

def findExtendsPos (t : Str) : Option Nat := findExtendsAux t t.length

/-- Matcher for the conditional-type regex
`^(.+)\s+extends\s+(.+)\s*\?\s*(.+)\s*:\s*(.+)$` of src/utils.ts, with the
greedy groups resolved to the rightmost `extends` / `?` / `:` split.  The
source trims every capture immediately, so the captures are returned
trimmed. -/
def condSplit (t : Str) : Option (Str × Str × Str × Str) :=
  match findExtendsPos t with
  | none => none
  | some i =>
    let g1 := trimWS (t.take i)
    let r := t.drop (i + 7)
    match lastIdxOfChar r ':' with
    | none => none
    | some k =>
      if trimWS (r.drop (k + 1)) = [] then none
      else
        match lastIdxOfChar (r.take k) '?' with
        | none => none
        | some q =>
          if trimWS (r.take q) = [] then none
          else if trimWS ((r.drop (q + 1)).take (k - q - 1)) = [] then none
          else some (g1, trimWS (r.take q),
                     trimWS ((r.drop (q + 1)).take (k - q - 1)),
                     trimWS (r.drop (k + 1)))

def fnSplitAux (rest : Str) : Nat → Option (Str × Str)
  | 0 => none
  | j + 1 =>
    if rest.getD j ')' = ')' && rest.length > j then
      let u := trimL (rest.drop (j + 1))
      if startsW u ("=>".data) && u.drop 2 ≠ [] then
        some (rest.take j, u.drop 2)
      else fnSplitAux rest j
    else fnSplitAux rest j

/-- Matcher for the arrow-function regex `^\((.*)\)\s*=>\s*(.+)$` of
src/utils.ts (greedy first group: rightmost viable `)`). -/
def fnSplit (t : Str) : Option (Str × Str) :=
  match t with
  | [] => none
  | c :: rest => if c = '(' then fnSplitAux rest rest.length else none

/-- The string/char-literal regex `^(['"]).*\1$` (the dot excludes line
terminators). -/
def isQuotedLit (t : Str) : Bool :=
  match t with
  | c :: (_ :: _) =>
    (c = dquote || c = squote) && t.getLast! = c
      && !((t.drop 1).dropLast.any (fun d => d = '\n' || d = '\r'))
  | _ => false

def allDigits (l : Str) : Bool := l ≠ [] && l.all Char.isDigit

/-- The numeric-literal regex `^\d+(\.\d+)?$`. -/
def isNumericLit (t : Str) : Bool :=
  match splitOnChar '.' t with
  | [a] => allDigits a
  | [a, b] => allDigits a && allDigits b
  | _ => false

def wrapArray : Nat → Str → Str
  | 0, s => s
  | n + 1, s => wrapArray n ("Array<".data ++ s ++ ">".data)

def peelArr : Nat → Str → Str × Nat
  | 0, s => (s, 0)
  | n + 1, s =>
    if endsW s ("[]".data) then
      let r := peelArr n (trimWS (s.take (s.length - 2)))
      (r.1, r.2 + 1)
    else (s, 0)

def dynComment (dynamicType t : Str) : Str :=
  dynamicType ++ " /* ".data ++ t ++ " */".data

/-- `convertToKotlinType` from src/utils.ts, with an explicit fuel parameter
standing in for the recursion (every recursive call of the source is on a
strictly shorter string, so `length + 1` fuel never runs out).  The constant
table (`currentConstants`) is threaded explicitly; it is the only side
effect of the source function. -/
def convertFuel : Nat → Str → Bool → Bool → List (Str × Str) → Str × List (Str × Str)
  | 0, t, _, _, tbl => (t, tbl)
  | fuel + 1, originalType, strict, noDynamic, tbl =>
    if originalType = [] then ([], tbl) else
    let dynamicType := if noDynamic then "Any".data else "dynamic".data
    let type := trimWS originalType
    match lookupStr types type with
    | some v => (v, tbl)
    | none =>
    if strict then (dynComment dynamicType type, tbl) else
    if startsW type ("import".data) then
      match lastIdxOfChar type '.' with
      | some i => ((type.drop (i + 1)).filter (fun c => c ≠ dquote), tbl)
      | none => (dynComment dynamicType type, tbl)
    else if startsW type ("typeof".data) || startsW type ("new".data)
        || startsW type ("readonly".data) then
      convertFuel fuel (joinSep [' '] ((splitOnChar ' ' type).drop 1)) false false tbl
    else if startsW type ("keyof".data) || startsW type ("Omit<".data)
        || startsW type ("Pick<".data) then
      (dynComment dynamicType type, tbl)
    else if type.contains '|' || type.contains '&' then
      if type.contains '&' then (dynComment dynamicType type, tbl)
      else
        let unionTypes := (splitOnChar '|' type).map trimWS
        let step := unionTypes.foldl
          (fun (acc : List Str × List (Str × Str)) u =>
            let r := convertFuel fuel u strict noDynamic acc.2
            (acc.1 ++ [r.1], r.2)) ([], tbl)
        let convertedTypes := step.1
        let uniqueTypes := dedupFirst convertedTypes
        if uniqueTypes.length = 1 then (convertedTypes.getD 0 [], step.2)
        else if uniqueTypes.length = 2
            && (uniqueTypes.contains ("undefined".data)
                || uniqueTypes.contains ("null".data)) then
          match uniqueTypes.find? (fun u => u ≠ "undefined".data && u ≠ "null".data) with
          | some v => (v ++ "?".data, step.2)
          | none => ("undefined?".data, step.2)
        else
          let finalType := joinSep " | ".data uniqueTypes
          match lookupStr types finalType with
          | some v => (v, step.2)
          | none => (dynComment dynamicType finalType, step.2)
    else
      let condRes : Option (Str × List (Str × Str)) :=
        match condSplit type with
        | some (_, constraint, trueType, falseType) =>
          if constraint = "(...args: any[]) => any".data then
            let r1 := convertFuel fuel trueType strict noDynamic tbl
            let r2 := convertFuel fuel falseType strict noDynamic r1.2
            if r2.1 = "unknown".data || r2.1 = "Any".data then
              some (r1.1 ++ "?".data, r2.2)
            else some (dynComment dynamicType type, r2.2)
          else none
        | none => none
      match condRes with
      | some r => r
      | none =>
      match fnSplit type with
      | some (params, returnRaw) =>
        let pstep := (splitGenerics params).foldl
          (fun (acc : List Str × List (Str × Str)) param =>
            let parts := (splitOnChar ':' param).map trimWS
            let p1 := parts.getD 1 []
            let pt := if p1 = [] then "Any".data else p1
            let r := convertFuel fuel pt false false acc.2
            if r.1 = "Nothing".data || r.1 = [] then (acc.1, r.2)
            else (acc.1 ++ [r.1], r.2)) ([], tbl)
        let ret := convertFuel fuel (trimWS returnRaw) strict noDynamic pstep.2
        ("(".data ++ joinSep ", ".data pstep.1 ++ ") -> ".data ++ ret.1, ret.2)
      | none =>
      if isQuotedLit type then
        ("String".data, setAssoc tbl type ((type.drop 1).dropLast))
      else if isNumericLit type then ("Double".data, tbl)
      else if type = "true".data || type = "false".data then ("Boolean".data, tbl)
      else if startsW type [lbrace] && endsW type [rbrace] then
        (dynComment dynamicType type, tbl)
      else if type.contains '.' && !type.contains '<' then
        convertFuel fuel ((splitOnChar '.' type).getLastD type) strict noDynamic tbl
      else
        let peeled := peelArr type.length type
        let type1 := peeled.1
        let arrayDepth := peeled.2
        if startsW type1 ("[".data) && endsW type1 ("]".data) then
          let innerTs := (splitOnChar ',' ((type1.drop 1).take (type1.length - 2))).map trimWS
          let istep := innerTs.foldl
            (fun (acc : List Str × List (Str × Str)) u =>
              let r := convertFuel fuel u strict noDynamic acc.2
              (acc.1 ++ [r.1], r.2)) ([], tbl)
          let uniqueInner := dedupFirst istep.1
          if uniqueInner.length = 1 then
            ("Array<".data ++ uniqueInner.getD 0 [] ++ ">".data, istep.2)
          else
            ("Array<".data ++ dynamicType ++ "> /* ".data ++ type1 ++ " */".data, istep.2)
        else if type1.contains '[' && type1.contains ']' then
          (dynComment dynamicType type1, tbl)
        else
          match extractGenericParts type1 with
          | some (baseRaw, argsRaw) =>
            let base0 := (lookupStr types (trimWS baseRaw)).getD (trimWS baseRaw)
            let base := if base0.contains '.' then (splitOnChar '.' base0).getLastD base0
                        else base0
            let astep := (splitGenerics argsRaw).foldl
              (fun (acc : List Str × List (Str × Str)) arg =>
                let r := convertFuel fuel arg strict noDynamic acc.2
                if r.1 = "Nothing".data || r.1 = [] then (acc.1, r.2)
                else (acc.1 ++ [r.1], r.2)) ([], tbl)
            if astep.1 = [] then (base, astep.2)
            else
              let baseType :=
                if innerTypes.contains base && astep.1.length = 1 then
                  astep.1.getD 0 dynamicType
                else base ++ "<".data ++ joinSep ", ".data astep.1 ++ ">".data
              (wrapArray arrayDepth baseType, astep.2)
          | none =>
            let bt0 := (lookupStr types type1).getD type1
            let baseType :=
              if startsW type1 [lbrace] && endsW type1 [rbrace] then
                dynComment dynamicType type1
              else bt0
            (wrapArray arrayDepth baseType, tbl)

/-- `convertToKotlinType(originalType, strict, noDynamic)` with the constant
table threaded through. -/
def convertToKotlinType (t : Str) (strict noDynamic : Bool)
    (tbl : List (Str × Str)) : Str × List (Str × Str) :=
  convertFuel (t.length + 1) t strict noDynamic tbl

/-- `findName` from src/utils.ts.  The argument is the declaration's
`getName()` result (`none` when the node is unnamed). -/
def findName (nameOpt : Option Str) (st : GenState) : Str × GenState :=
  match nameOpt with
  | some name0 =>
    if name0 ≠ [] then
      let braced := startsW name0 [lbrace] && endsW name0 [rbrace]
      let name1 := if braced then "object".data ++ natToStr st.counter else name0
      let st1 := if braced then { st with counter := st.counter + 1 } else st
      if startsW name1 ("[".data) && endsW name1 ("]".data) then
        match lookupStr st1.constants name1 with
        | some r => (r, st1)
        | none => ("__".data ++ name1, st1)
      else
        let name2 := if startsW name1 [dquote] then name1.drop 1 else name1
        let name3 := if endsW name2 [dquote] then name2.take (name2.length - 1) else name2
        if specialNames.contains name3 || name3.contains '-' || name3.contains ' '
            || name3.contains '/'
            || (match name3 with
                | c :: _ => c.isDigit || isWS c
                | [] => false) then
          ([bquote] ++ name3 ++ [bquote], st1)
        else if name3.contains '.' then
          let p := (splitOnChar '.' name3).getLastD []
          (if p = [] then name3 else p, st1)
        else (name3, st1)
    else ("Unnamed".data ++ natToStr (st.counter + 1), { st with counter := st.counter + 1 })
  | none => ("Unnamed".data ++ natToStr (st.counter + 1), { st with counter := st.counter + 1 })

end Tykon

namespace Tykon

/-- One JSDoc block: `getCommentText()` and the `getText(false)` result of
each tag, as supplied by ts-morph. -/
structure JSDoc where
  commentText : Option Str
  tags : List Str
deriving Repr, DecidableEq

/-- `getJsDoc` from src/utils.ts. -/
def getJsDoc (docs : List JSDoc) (nl : Str) (indent : Str := []) : Str :=
  let blocks := docs.map (fun doc =>
    let tagStrs := doc.tags.map (fun tag =>
      let text := if tag = [] then "No description provided.".data else tag
      if startsW text ("@returns".data) then "@return ".data ++ text.drop 8
      else text)
    let tags := joinSep (nl ++ indent ++ " * ".data) tagStrs
    indent ++ "/**".data ++ nl ++ indent ++ " * ".data ++ (doc.commentText.getD [])
      ++ nl ++ indent ++ " * ".data ++ tags ++ nl ++ indent ++ " */".data)
  let jsdoc := joinSep (nl ++ nl) blocks
  if jsdoc ≠ [] then jsdoc ++ nl else []

/-- `TykonConfig` from src/config.ts (`modName` is the `module` field,
`pkgName` the `package` field). -/
structure TykonConfig where
  modName : Option Str
  newLine : Option Str
  pkgName : Str
  spaces : Option Nat
  tabs : Option Nat
  imports : Option (List Str)
deriving Repr, DecidableEq

/-- `config.newLine || '\n'` (empty string is falsy in JS). -/
def nlOf (c : TykonConfig) : Str :=
  match c.newLine with
  | some s => if s = [] then "\n".data else s
  | none => "\n".data

def spacesInd (c : TykonConfig) : Str :=
  List.replicate (match c.spaces with
                  | some s => if s = 0 then 4 else s
                  | none => 4) ' '

/-- `config.tabs ? '\t'.repeat(config.tabs) : ' '.repeat(config.spaces || 4)`. -/
def indentOf (c : TykonConfig) : Str :=
  match c.tabs with
  | some t => if t = 0 then spacesInd c else List.replicate t '\t'
  | none => spacesInd c

/-- A generic type parameter: name, constraint text and default text.  The
generator never reads `defaultText`. -/
structure TypeParamDecl where
  name : Str
  constraint : Option Str
  defaultText : Option Str
deriving Repr, DecidableEq

/-- A parameter.  `typeText` is `findType(param.getType()).getText()`;
`typeNullable` is `findType(param.getType()).isNullable()` (used for
constructor parameters), `optional` is `param.isOptional()`. -/
structure ParamDecl where
  name : Str
  typeText : Str
  optional : Bool
  typeNullable : Bool
  docs : List JSDoc
deriving Repr, DecidableEq

/-- A property declaration/signature.  The `type*` fields reflect
`findType(prop.getType())`; `hasTypeQueryNode` reflects
`prop.getTypeNode()?.getKind() === SyntaxKind.TypeQuery`. -/
structure PropDecl where
  name : Str
  static : Bool
  readonly : Bool
  typeText : Str
  typeNullable : Bool
  typeIsTypeParameter : Bool
  hasTypeQueryNode : Bool
  docs : List JSDoc
deriving Repr, DecidableEq

structure MethodDecl where
  name : Str
  static : Bool
  params : List ParamDecl
  returnTypeText : Str
  typeParams : List TypeParamDecl
  docs : List JSDoc
deriving Repr, DecidableEq

structure CtorDecl where
  params : List ParamDecl
  docs : List JSDoc
deriving Repr, DecidableEq

/-- One declaration of a resolved symbol (for `symbol.getDeclarations()`),
restricted to the fields `getParentProperties` reads: kind, name, and the
property members. -/
structure SymDeclModel where
  isInterfaceDecl : Bool
  isClassDecl : Bool
  name : Str
  propMembers : List PropDecl
deriving Repr, DecidableEq

structure SymbolModel where
  name : Str
  decls : List SymDeclModel
deriving Repr, DecidableEq

/-- An `extends` clause: its text, the resolved type's symbol, and — for the
class generic-parent path — whether `findType(ext.getType())` is an object
type and its type-argument texts. -/
structure ExtendsClause where
  text : Str
  symbol : Option SymbolModel
  typeIsObject : Bool
  typeArgs : List Str
deriving Repr, DecidableEq

structure ClassDecl where
  declareKeyword : Bool
  ambientContext : Bool
  name : Str
  isAbstract : Bool
  typeParams : List TypeParamDecl
  extendsClause : Option ExtendsClause
  ctors : List CtorDecl
  props : List PropDecl
  methods : List MethodDecl
  parentDecl : Option (List MethodDecl)
  docs : List JSDoc
deriving Repr, DecidableEq

structure InterfaceDecl where
  declareKeyword : Bool
  ambientContext : Bool
  name : Str
  typeParams : List TypeParamDecl
  symbolDeclsTypeParams : Option (List (List TypeParamDecl))
  extendsList : List ExtendsClause
  props : List PropDecl
  methods : List MethodDecl
  parentDecl : Option (List MethodDecl)
  docs : List JSDoc
deriving Repr, DecidableEq

/-- `node.isAmbient()` in ts-morph: the node has the `declare` keyword or
lives in an ambient context (a `.d.ts` file or a `declare module` block). -/
def isAmbientC (c : ClassDecl) : Bool := c.declareKeyword || c.ambientContext

def isAmbientI (i : InterfaceDecl) : Bool := i.declareKeyword || i.ambientContext

/-- The common shape `createProperties`/`createMethods` consume from a class
or interface declaration. -/
structure ClassLikeView where
  isClassKind : Bool
  props : List PropDecl
  methods : List MethodDecl
  typeParamsLen : Nat
  exts : List ExtendsClause
  parentDecl : Option (List MethodDecl)
deriving Repr, DecidableEq

def classView (c : ClassDecl) : ClassLikeView :=
  ⟨true, c.props, c.methods, c.typeParams.length,
   (match c.extendsClause with | some e => [e] | none => []), c.parentDecl⟩

def ifaceView (i : InterfaceDecl) : ClassLikeView :=
  ⟨false, i.props, i.methods, i.typeParams.length, i.extendsList, i.parentDecl⟩

/-- `getParentProperties` from src/generator.ts. -/
def getParentProperties (isClassDecln : Bool) (exts : List ExtendsClause) : List PropDecl :=
  exts.foldr (fun ext acc =>
    (match ext.symbol with
     | none => []
     | some sym =>
       sym.decls.foldr (fun d acc2 =>
         (if isClassDecln && d.isInterfaceDecl then []
          else if d.isInterfaceDecl || d.isClassDecl then
            if d.name = "Error".data then [] else d.propMembers
          else []) ++ acc2) []) ++ acc) []

/-- `parentProperties.some(p => findName(p) === propName)`: `some` evaluates
`findName` (which may bump the unnamed counter) left to right and
short-circuits on the first hit. -/
def anyFindNameEq (ps : List PropDecl) (target : Str) (st : GenState) : Bool × GenState :=
  match ps with
  | [] => (false, st)
  | p :: rest =>
    let r := findName (some p.name) st
    if r.1 = target then (true, r.2) else anyFindNameEq rest target r.2

/-- `parent.getMethods().filter(m => findName(m) === methodName).length`:
`filter` evaluates `findName` on every element. -/
def countFindNameEq (ms : List MethodDecl) (target : Str) (st : GenState) : Nat × GenState :=
  match ms with
  | [] => (0, st)
  | m :: rest =>
    let r := findName (some m.name) st
    let n := countFindNameEq rest target r.2
    ((if r.1 = target then 1 else 0) + n.1, n.2)

/-- `createProperties` from src/generator.ts. -/
def createProperties (cfg : TykonConfig) (v : ClassLikeView) (st : GenState) : Str × GenState :=
  let nl := nlOf cfg
  let indent := indentOf cfg
  v.props.foldl (fun (acc : Str × GenState) prop =>
    if prop.static then acc else
    let ty := if prop.readonly then "val".data else "var".data
    let r := findName (some prop.name) acc.2
    let propName := r.1
    if startsW propName ("__".data) || startsW propName ("$".data) then (acc.1, r.2) else
    let parentProperties := getParentProperties v.isClassKind v.exts
    let ov := anyFindNameEq parentProperties propName r.2
    let override := if ov.1 then "override ".data else []
    let jsDoc := getJsDoc prop.docs nl indent
    if prop.hasTypeQueryNode then (acc.1, ov.2) else
    if v.typeParamsLen = 0 && prop.typeIsTypeParameter then (acc.1, ov.2) else
    let pr := convertToKotlinType prop.typeText false false ov.2.constants
    let st3 := { ov.2 with constants := pr.2 }
    if pr.1 = "Nothing".data then (acc.1, st3) else
    let isOptional := if prop.typeNullable then "?".data else []
    (acc.1 ++ jsDoc ++ indent ++ override ++ ty ++ " ".data ++ propName ++ ": ".data
       ++ pr.1 ++ isOptional ++ nl ++ nl, st3)) ([], st)

/-- `overrideMethods` from src/generator.ts. -/
def overrideMethods : List Str := [ "toString".data, "equals".data, "hashCode".data ]

/-- First phase of `createMethods`: render each non-static, non-private,
non-index method into its `{ method, returnSuffix }` record. -/
def createMethodsPhase1 (cfg : TykonConfig) (v : ClassLikeView) (st : GenState) :
    List (Str × Str) × GenState :=
  let nl := nlOf cfg
  let indent := indentOf cfg
  v.methods.foldl (fun (acc : List (Str × Str) × GenState) method =>
    if method.static then acc else
    let r := findName (some method.name) acc.2
    let methodName := r.1
    if startsW methodName ("__".data) || startsW methodName ("$".data) then (acc.1, r.2) else
    if startsW methodName ("[".data) || endsW methodName ("]".data) then (acc.1, r.2) else
    let override0 :=
      if overrideMethods.contains methodName && method.params.length = 0 then
        "override ".data
      else []
    let po :=
      match v.parentDecl with
      | some pms =>
        let c := countFindNameEq pms methodName r.2
        ((if c.1 > 0 then "override ".data else override0), c.2)
      | none => (override0, r.2)
    let rr := convertToKotlinType method.returnTypeText false false po.2.constants
    let st3 := { po.2 with constants := rr.2 }
    let returnTypeSuffix := if rr.1 = "Unit".data then [] else ": ".data ++ rr.1
    let pstep := method.params.foldl (fun (pacc : List Str × GenState) param =>
      let pn := findName (some param.name) pacc.2
      let pc := convertToKotlinType param.typeText false false pn.2.constants
      let st' := { pn.2 with constants := pc.2 }
      let isOpt := if param.optional then "? = definedExternally".data else []
      (pacc.1 ++ [pn.1 ++ ": ".data ++ pc.1 ++ isOpt], st')) ([], st3)
    let params := joinSep ", ".data pstep.1
    let generics :=
      if method.typeParams.length > 0 then
        "<".data ++ joinSep ", ".data (method.typeParams.map (fun tp => tp.name)) ++ "> ".data
      else []
    let cstep := method.typeParams.foldl (fun (cacc : List Str × GenState) tp =>
      match tp.constraint with
      | none => cacc
      | some con =>
        let cr := convertToKotlinType con false true cacc.2.constants
        let st' := { cacc.2 with constants := cr.2 }
        if startsW cr.1 ("Any".data) || startsW cr.1 ("dynamic".data)
            || cr.1 = "Unit".data then (cacc.1, st')
        else (cacc.1 ++ [tp.name ++ " : ".data ++ cr.1 ++ " /* ".data ++ con ++ " */".data],
              st')) ([], pstep.2)
    let whereClause :=
      if cstep.1.length > 0 then " where ".data ++ joinSep ", ".data cstep.1 else []
    let jsDoc := getJsDoc method.docs nl indent
    (acc.1 ++ [(jsDoc ++ indent ++ po.1 ++ "fun ".data ++ generics ++ methodName
                  ++ "(".data ++ params ++ ")".data,
                returnTypeSuffix ++ whereClause ++ nl ++ nl)], cstep.2)) ([], st)

/-- The signature normalisation of `createMethods`: drop the first default
marker, delete star-to-star spans, trim. -/
def normalizeSig (m : Str) : Str :=
  trimWS (stripStarSpans (replaceFirstSub m ("? = definedExternally".data) []))

/-- `createMethods` from src/generator.ts, including the overload-collapse
second phase. -/
def createMethods (cfg : TykonConfig) (v : ClassLikeView) (st : GenState) : Str × GenState :=
  let nl := nlOf cfg
  let step := createMethodsPhase1 cfg v st
  let methodOutput := step.1
  let byMethodName := methodOutput.map (fun m => normalizeSig m.1)
  let final := methodOutput.foldl (fun (facc : Str × List Str) m =>
    let methodName := normalizeSig m.1
    if jsLastIndexOf byMethodName methodName ≠ jsIndexOf byMethodName methodName then
      if facc.2.contains methodName then facc
      else (facc.1 ++ m.1 ++ ": dynamic".data ++ nl ++ nl, facc.2 ++ [methodName])
    else (facc.1 ++ m.1 ++ m.2, facc.2)) ([], [])
  (final.1, step.2)

/-- `createStaticProperties` from src/generator.ts (the companion block). -/
def createStaticProperties (cfg : TykonConfig) (c : ClassDecl) (st : GenState) : Str × GenState :=
  let nl := nlOf cfg
  let indent := indentOf cfg
  let head := indent ++ "companion object \x7b".data ++ nl
  let pstep := (c.props.filter (fun p => p.static)).foldl (fun (acc : Str × GenState) prop =>
    let r := findName (some prop.name) acc.2
    let propName := r.1
    if startsW propName ("__".data) || startsW propName ("$".data) then (acc.1, r.2) else
    let pr := convertToKotlinType prop.typeText false false r.2.constants
    let st2 := { r.2 with constants := pr.2 }
    let isOptional := if prop.typeNullable then "?".data else []
    let jsDoc := getJsDoc prop.docs nl (indent ++ indent)
    (acc.1 ++ jsDoc ++ indent ++ indent ++ "val ".data ++ propName ++ ": ".data
       ++ pr.1 ++ isOptional ++ nl ++ nl, st2)) ([], st)
  let mstep := (c.methods.filter (fun m => m.static)).foldl (fun (acc : Str × GenState) method =>
    let r := findName (some method.name) acc.2
    let methodName := r.1
    if startsW methodName ("__".data) || startsW methodName ("$".data) then (acc.1, r.2) else
    let rr := convertToKotlinType method.returnTypeText false false r.2.constants
    let st2 := { r.2 with constants := rr.2 }
    let pstep2 := method.params.foldl (fun (pacc : List Str × GenState) param =>
      let pn := findName (some param.name) pacc.2
      let pc := convertToKotlinType param.typeText false false pn.2.constants
      let st' := { pn.2 with constants := pc.2 }
      let isOpt := if param.optional then "? = definedExternally".data else []
      (pacc.1 ++ [pn.1 ++ ": ".data ++ pc.1 ++ isOpt], st')) ([], st2)
    let jsDoc := getJsDoc method.docs nl (indent ++ indent)
    (acc.1 ++ jsDoc ++ indent ++ indent ++ "fun ".data ++ methodName ++ "(".data
       ++ joinSep ", ".data pstep2.1 ++ "): ".data ++ rr.1 ++ nl ++ nl,
     pstep2.2)) ([], pstep.2)
  (head ++ pstep.1 ++ mstep.1 ++ indent ++ "\x7d".data ++ nl ++ nl, mstep.2)

structure VariableDecl where
  name : Str
  typeText : Str
deriving Repr, DecidableEq

structure VariableStatement where
  declareKeyword : Bool
  ambientContext : Bool
  docs : List JSDoc
  decls : List VariableDecl
deriving Repr, DecidableEq

def isAmbientV (v : VariableStatement) : Bool := v.declareKeyword || v.ambientContext

structure FunctionDecl where
  declareKeyword : Bool
  ambientContext : Bool
  name : Str
  params : List ParamDecl
  returnTypeText : Str
  typeParams : List TypeParamDecl
  docs : List JSDoc
deriving Repr, DecidableEq

def isAmbientF (f : FunctionDecl) : Bool := f.declareKeyword || f.ambientContext

/-- `generateVariable` from src/generator.ts: skips `declare`-keyword
statements, private names, and malformed angle-bracket types; never throws. -/
def generateVariable (cfg : TykonConfig) (stmt : VariableStatement)
    (decl : VariableDecl) (st : GenState) : Except Str (Str × GenState) :=
  if stmt.declareKeyword then .ok ([], st) else
  let nl := nlOf cfg
  let r := findName (some decl.name) st
  if startsW r.1 ("__".data) || startsW r.1 ("$".data) then .ok ([], r.2) else
  let cv := convertToKotlinType decl.typeText false false r.2.constants
  let st2 := { r.2 with constants := cv.2 }
  if startsW cv.1 ("<".data) && endsW cv.1 (">".data) then .ok ([], st2) else
  .ok (getJsDoc stmt.docs nl ++ "external val ".data ++ r.1 ++ ": ".data ++ cv.1 ++ nl, st2)

/-- `generateFunction` from src/generator.ts. -/
def generateFunction (cfg : TykonConfig) (f : FunctionDecl) (st : GenState) :
    Except Str (Str × GenState) :=
  if f.declareKeyword then .ok ([], st) else
  if !(isAmbientF f) then .error ("Only ambient functions are supported".data) else
  let nl := nlOf cfg
  let r := findName (some f.name) st
  if startsW r.1 ("__".data) || startsW r.1 ("$".data) then .ok ([], r.2) else
  let rr := convertToKotlinType f.returnTypeText false false r.2.constants
  let st2 := { r.2 with constants := rr.2 }
  let returnTypeSuffix := if rr.1 = "Unit".data then [] else ": ".data ++ rr.1
  let pstep := f.params.foldl (fun (pacc : List Str × GenState) param =>
    let pn := findName (some param.name) pacc.2
    let pc := convertToKotlinType param.typeText false false pn.2.constants
    let st' := { pn.2 with constants := pc.2 }
    let isOpt := if param.optional then "? = definedExternally".data else []
    (pacc.1 ++ [pn.1 ++ ": ".data ++ pc.1 ++ isOpt], st')) ([], st2)
  let generics :=
    if f.typeParams.length > 0 then
      "<".data ++ joinSep ", ".data (f.typeParams.map (fun tp => tp.name)) ++ "> ".data
    else []
  .ok (getJsDoc f.docs nl ++ "external fun ".data ++ generics ++ r.1 ++ "(".data
        ++ joinSep ", ".data pstep.1 ++ ")".data ++ returnTypeSuffix ++ nl ++ nl,
       pstep.2)

/-- `doNotExpose` from src/generator.ts. -/
def doNotExpose : List Str :=
  [ "GlobalDescriptor".data, "EventTarget".data, "MessageEvent".data,
    "MessageEventInit".data, "WebSocket".data, "WebSocketEventMap".data ]

/-- `generateClass` from src/generator.ts. -/
def generateClass (cfg : TykonConfig) (c : ClassDecl) (st : GenState) :
    Except Str (Str × GenState) :=
  if !(isAmbientC c) then .error ("Only ambient classes are supported".data) else
  let nl := nlOf cfg
  let indent := indentOf cfg
  let r := findName (some c.name) st
  let name := r.1
  if doNotExpose.contains name then .ok ([], r.2) else
  if startsW name ("__".data) || startsW name ("$".data) then .ok ([], r.2) else
  let modifiers := if c.isAbstract then "abstract ".data else "open ".data
  let typeParams := c.typeParams
  let generics :=
    if typeParams.length > 0 then
      "<".data ++ joinSep ", ".data (typeParams.map (fun tp => tp.name)) ++ ">".data
    else []
  let cstep :=
    if typeParams.length > 0 then
      typeParams.foldl (fun (cacc : List Str × GenState) tp =>
        match tp.constraint with
        | none => cacc
        | some con =>
          let cr := convertToKotlinType con false true cacc.2.constants
          let st' := { cacc.2 with constants := cr.2 }
          if cr.1 = "Any".data || cr.1 = "dynamic".data || cr.1 = "Unit".data then
            (cacc.1, st')
          else
            (cacc.1 ++ [tp.name ++ " : ".data ++ cr.1 ++ " /* ".data ++ con ++ " */".data],
             st')) ([], r.2)
    else ([], r.2)
  let parentRaw := match c.extendsClause with | some e => e.text | none => []
  let pstep :=
    if parentRaw.contains '<' && parentRaw.contains '>' then
      match c.extendsClause with
      | some e =>
        if e.typeIsObject && e.typeArgs.length > 0 then
          let astep := (e.typeArgs.filter (fun a => a ≠ "this".data)).foldl
            (fun (acc : List Str × List (Str × Str)) a =>
              let crr := convertToKotlinType a false true acc.2
              (acc.1 ++ [crr.1], crr.2)) ([], cstep.2.constants)
          ((splitOnChar '<' parentRaw).getD 0 [] ++ "<".data
             ++ joinSep ", ".data astep.1 ++ ">".data, astep.2)
        else ((splitOnChar '<' parentRaw).getD 0 [], cstep.2.constants)
      | none => (parentRaw, cstep.2.constants)
    else (parentRaw, cstep.2.constants)
  let st4 := { cstep.2 with constants := pstep.2 }
  let parent := pstep.1
  let approved := parent ≠ [] && parent ≠ "Error".data && parent ≠ "dynamic".data
  let parent0 := if parent ≠ [] && approved then " : ".data ++ parent else []
  let whereClause :=
    if cstep.1.length > 0 then " where ".data ++ joinSep ", ".data cstep.1 else []
  let header := getJsDoc c.docs nl ++ modifiers ++ "external class ".data ++ name
    ++ generics ++ parent0 ++ whereClause ++ " \x7b".data ++ nl
  let ctorStep := c.ctors.foldl (fun (acc : Str × GenState) ctor =>
    let ps := ctor.params.foldl (fun (pacc : List Str × GenState) param =>
      let pc := convertToKotlinType param.typeText false false pacc.2.constants
      let st' := { pacc.2 with constants := pc.2 }
      let isOpt := if param.typeNullable then "? = definedExternally".data else []
      (pacc.1 ++ [param.name ++ ": ".data ++ pc.1 ++ isOpt], st')) ([], acc.2)
    let jsDoc := getJsDoc ctor.docs nl indent
    (acc.1 ++ jsDoc ++ indent ++ "constructor(".data ++ joinSep ", ".data ps.1
       ++ ")".data ++ nl ++ nl, ps.2)) ([], st4)
  let props := createProperties cfg (classView c) ctorStep.2
  let methods := createMethods cfg (classView c) props.2
  let statics :=
    if (c.props.filter (fun p => p.static)).length > 0
        || (c.methods.filter (fun m => m.static)).length > 0 then
      createStaticProperties cfg c methods.2
    else ([], methods.2)
  .ok (header ++ ctorStep.1 ++ props.1 ++ methods.1 ++ statics.1 ++ "\x7d".data ++ nl,
       statics.2)

/-- `generateInterface` from src/generator.ts. -/
def generateInterface (cfg : TykonConfig) (i : InterfaceDecl) (st : GenState) :
    Except Str (Str × GenState) :=
  if !(isAmbientI i) then .error ("Only ambient interfaces are supported".data) else
  let nl := nlOf cfg
  let r := findName (some i.name) st
  let name := r.1
  if doNotExpose.contains name then .ok ([], r.2) else
  if startsW name ("__".data) || startsW name ("$".data) then .ok ([], r.2) else
  let typeParams : List TypeParamDecl :=
    match i.symbolDeclsTypeParams with
    | none => []
    | some lists =>
      lists.foldl (fun (acc : List TypeParamDecl) (l : List TypeParamDecl) =>
        let existingNames := acc.map (fun tp => tp.name)
        acc ++ l.filter (fun tp => !(existingNames.contains tp.name))) []
  let generics :=
    if typeParams.length > 0 then
      "<".data ++ joinSep ", ".data (typeParams.map (fun tp => tp.name)) ++ ">".data
    else []
  let cstep :=
    if typeParams.length > 0 then
      typeParams.foldl (fun (cacc : List Str × GenState) tp =>
        match tp.constraint with
        | none => cacc
        | some con =>
          let cr := convertToKotlinType con false false cacc.2.constants
          let st' := { cacc.2 with constants := cr.2 }
          if startsW cr.1 ("Any".data) || startsW cr.1 ("dynamic".data)
              || cr.1 = "Unit".data then (cacc.1, st')
          else
            (cacc.1 ++ [tp.name ++ " : ".data ++ cr.1 ++ " /* ".data ++ con ++ " */".data],
             st')) ([], r.2)
    else ([], r.2)
  let parents := i.extendsList.filter (fun p =>
    match p.symbol with
    | none => false
    | some sym =>
      if startsW sym.name ("__".data) then false
      else if sym.name = "Error".data then false
      else (sym.decls.filter (fun d => d.isInterfaceDecl)).length = sym.decls.length)
  let parent0 :=
    if parents.length > 0 then
      " : ".data ++ joinSep ", ".data (parents.map (fun p => p.text))
    else []
  let whereClause :=
    if cstep.1.length > 0 then " where ".data ++ joinSep ", ".data cstep.1 else []
  let header := getJsDoc i.docs nl ++ "external interface ".data ++ name ++ generics
    ++ parent0 ++ whereClause ++ " \x7b".data ++ nl
  let props := createProperties cfg (ifaceView i) cstep.2
  let methods := createMethods cfg (ifaceView i) props.2
  .ok (header ++ props.1 ++ methods.1 ++ "\x7d".data ++ nl, methods.2)

end Tykon

namespace Tykon

/-- A property symbol reachable from `type.getProperties()`:
`firstDeclIsPropSig` is `Node.isPropertySignature(declarations[0])` (false
also covers an empty declaration list); the remaining fields read the first
declaration. -/
structure PropSig where
  firstDeclIsPropSig : Bool
  name : Str
  typeText : Str
  hasQuestionToken : Bool
  docs : List JSDoc
deriving Repr, DecidableEq

/-- One member of an intersection type (`type.getIntersectionTypes()`). -/
structure IntersectionPart where
  isTypeParameter : Bool
  text : Str
  props : List PropSig
deriving Repr, DecidableEq

/-- Model of `utils.findType(declaration.getType())` for a type alias: the
shape classification flags and accessors `generateTypeAlias` reads from the
ts-morph `Type`. `condNode` is `(trueType.getText(), falseType.getText())`
when the alias's type node is a conditional type node. -/
structure AliasTypeModel where
  text : Str
  isIntersection : Bool
  intersectionParts : List IntersectionPart
  conditionalFlag : Bool
  condNode : Option (Str × Str)
  isObject : Bool
  isUnion : Bool
  isArray : Bool
  arrayElemText : Option Str
  props : List PropSig
deriving Repr, DecidableEq

structure TypeAliasDecl where
  declareKeyword : Bool
  ambientContext : Bool
  name : Str
  typeParams : List TypeParamDecl
  aliasType : AliasTypeModel
  docs : List JSDoc
deriving Repr, DecidableEq

def isAmbientT (t : TypeAliasDecl) : Bool := t.declareKeyword || t.ambientContext

/-- The `createPropertiesFromType` helper inside `generateTypeAlias`. -/
def createPropertiesFromType (cfg : TykonConfig) (props : List PropSig)
    (st : GenState) : Str × GenState :=
  let nl := nlOf cfg
  let indent := indentOf cfg
  props.foldl (fun (acc : Str × GenState) prop =>
    if !prop.firstDeclIsPropSig then acc else
    let r := findName (some prop.name) acc.2
    let propName := r.1
    if startsW propName ("__".data) || startsW propName ("$".data) then (acc.1, r.2) else
    let pc := convertToKotlinType prop.typeText false false r.2.constants
    let st2 := { r.2 with constants := pc.2 }
    let propDoc := getJsDoc prop.docs nl indent
    (acc.1 ++ propDoc ++ indent ++ "var ".data ++ propName ++ ": ".data ++ pc.1
       ++ (if prop.hasQuestionToken then "?".data else []) ++ nl, st2)) ([], st)

/-- The "creator" helper function appended to the `typeAliases` buffer. -/
def creatorFun (name generics whereClause nl : Str) : Str :=
  "fun ".data ++ (if generics ≠ [] then generics ++ " ".data else [])
    ++ name ++ "(apply: ".data ++ name ++ generics
    ++ ".() -> Unit = \x7b\x7d): ".data ++ name ++ generics ++ whereClause
    ++ " = js(\"\x7b\x7d\").apply(apply)".data ++ nl ++ nl

/-- `generateTypeAlias` from src/generator.ts.  Buffered aliases and creator
functions go into `GenState.aliasBuf` (the module-level `typeAliases`
array). -/
def generateTypeAlias (cfg : TykonConfig) (d : TypeAliasDecl) (st : GenState) :
    Except Str (Str × GenState) :=
  if !(isAmbientT d) then .error ("Only ambient type aliases are supported".data) else
  let nl := nlOf cfg
  let r := findName (some d.name) st
  let name := r.1
  if doNotExpose.contains name then .ok ([], r.2) else
  if startsW name ("__".data) then .ok ([], r.2) else
  let type := d.aliasType
  let typeText := type.text
  let typeParams := d.typeParams
  let generics :=
    if typeParams.length > 0 then
      "<".data ++ joinSep ", ".data (typeParams.map (fun tp => tp.name)) ++ ">".data
    else []
  let cstep := typeParams.foldl (fun (cacc : List Str × GenState) tp =>
    match tp.constraint with
    | none => cacc
    | some con =>
      let cr := convertToKotlinType con false true cacc.2.constants
      let st' := { cacc.2 with constants := cr.2 }
      if startsW cr.1 ("Any".data) || startsW cr.1 ("dynamic".data)
          || cr.1 = "Unit".data then (cacc.1, st')
      else
        (cacc.1 ++ [tp.name ++ " : ".data ++ cr.1 ++ " /* ".data ++ con ++ " */".data],
         st')) ([], r.2)
  let whereClause :=
    if cstep.1.length > 0 then " where ".data ++ joinSep ", ".data cstep.1 else []
  let st1 := cstep.2
  let doc := getJsDoc d.docs nl
  if type.isIntersection then
    let istep := type.intersectionParts.foldl
      (fun (acc : List Str × Option IntersectionPart × GenState) t =>
        if t.isTypeParameter then acc else
        if startsW t.text [lbrace] && endsW t.text [rbrace] then
          (acc.1, some t, acc.2.2)
        else
          let cr := convertToKotlinType t.text false true acc.2.2.constants
          let st' := { acc.2.2 with constants := cr.2 }
          if startsW cr.1 ("dynamic".data) || startsW cr.1 ("Any".data) then
            (acc.1, acc.2.1, st')
          else (acc.1 ++ [cr.1], acc.2.1, st')) ([], none, st1)
    let parents0 :=
      if istep.1.length > 0 then " : ".data ++ joinSep ", ".data istep.1 else []
    match istep.2.1 with
    | some inlineObj =>
      let ps := createPropertiesFromType cfg inlineObj.props istep.2.2
      let output := doc ++ "external interface ".data ++ name ++ generics ++ parents0
        ++ whereClause ++ " \x7b".data ++ nl ++ ps.1 ++ "\x7d".data ++ nl ++ nl
      let st2 := ps.2
      .ok (output, { st2 with aliasBuf := st2.aliasBuf ++ [creatorFun name generics whereClause nl] })
    | none =>
      let cr := convertToKotlinType typeText true true istep.2.2.constants
      let st2 := { istep.2.2 with constants := cr.2 }
      .ok ([], { st2 with aliasBuf := st2.aliasBuf
        ++ [doc ++ "typealias ".data ++ name ++ generics ++ " = ".data ++ cr.1 ++ nl ++ nl] })
  else if type.conditionalFlag then
    match type.condNode with
    | some (trueText, falseText) =>
      let falsy := falseText = "undefined".data || falseText = "unknown".data
        || falseText = "never".data || falseText = "void".data || falseText = "null".data
      if falsy then
        let kt := convertToKotlinType trueText false true st1.constants
        let st2 := { st1 with constants := kt.2 }
        .ok ([], { st2 with aliasBuf := st2.aliasBuf
          ++ [doc ++ "typealias ".data ++ name ++ generics ++ " = ".data ++ kt.1
                ++ "?".data ++ whereClause ++ nl ++ nl] })
      else
        let kt := convertToKotlinType trueText false true st1.constants
        let kf := convertToKotlinType falseText false true kt.2
        let st2 := { st1 with constants := kf.2 }
        if kt.1 = kf.1 then
          .ok ([], { st2 with aliasBuf := st2.aliasBuf
            ++ [doc ++ "typealias ".data ++ name ++ generics ++ " = ".data ++ kt.1
                  ++ whereClause ++ nl ++ nl] })
        else
          .ok ([], { st2 with aliasBuf := st2.aliasBuf
            ++ [doc ++ "typealias ".data ++ name ++ generics ++ " = Any".data
                  ++ whereClause ++ nl ++ nl] })
    | none =>
      .ok ([], { st1 with aliasBuf := st1.aliasBuf
        ++ [doc ++ "typealias ".data ++ name ++ generics ++ " = Any".data
              ++ whereClause ++ nl ++ nl] })
  else if !type.isObject || type.isUnion then
    let cr := convertToKotlinType typeText true true st1.constants
    let st2 := { st1 with constants := cr.2 }
    .ok ([], { st2 with aliasBuf := st2.aliasBuf
      ++ [doc ++ "typealias ".data ++ name ++ generics ++ " = ".data ++ cr.1 ++ nl ++ nl] })
  else if type.isArray then
    let cr := convertToKotlinType (type.arrayElemText.getD ("Any".data)) true true st1.constants
    let st2 := { st1 with constants := cr.2 }
    .ok ([], { st2 with aliasBuf := st2.aliasBuf
      ++ [doc ++ "typealias ".data ++ name ++ generics ++ " = Array<".data ++ cr.1
            ++ ">".data ++ nl ++ nl] })
  else
    let ps := createPropertiesFromType cfg type.props st1
    let output := doc ++ "external interface ".data ++ name ++ generics
      ++ " \x7b".data ++ nl ++ ps.1 ++ "\x7d".data ++ nl ++ nl
    let st2 := ps.2
    .ok (output, { st2 with aliasBuf := st2.aliasBuf ++ [creatorFun name generics whereClause nl] })

/-- A non-module statement of a container. -/
inductive StatementLeaf where
  | varStmt (s : VariableStatement)
  | funcDecl (f : FunctionDecl)
  | classDecl (c : ClassDecl)
  | ifaceDecl (i : InterfaceDecl)
  | aliasDecl (a : TypeAliasDecl)
deriving Repr, DecidableEq

structure ModuleDecl where
  name : Str
  statements : List StatementLeaf
deriving Repr, DecidableEq

/-- A top-level statement of a source file. -/
inductive TopStatement where
  | leaf (s : StatementLeaf)
  | moduleDecl (m : ModuleDecl)
deriving Repr, DecidableEq

structure SourceFileModel where
  filePath : Str
  baseName : Str
  baseNameNoExt : Str
  statements : List TopStatement
deriving Repr, DecidableEq

def getVariableStatements (l : List StatementLeaf) : List VariableStatement :=
  l.filterMap (fun s => match s with | .varStmt v => some v | _ => none)

def getFunctions (l : List StatementLeaf) : List FunctionDecl :=
  l.filterMap (fun s => match s with | .funcDecl f => some f | _ => none)

def getClasses (l : List StatementLeaf) : List ClassDecl :=
  l.filterMap (fun s => match s with | .classDecl c => some c | _ => none)

def getInterfaces (l : List StatementLeaf) : List InterfaceDecl :=
  l.filterMap (fun s => match s with | .ifaceDecl i => some i | _ => none)

def getTypeAliases (l : List StatementLeaf) : List TypeAliasDecl :=
  l.filterMap (fun s => match s with | .aliasDecl a => some a | _ => none)

def getModules (sf : SourceFileModel) : List ModuleDecl :=
  sf.statements.filterMap (fun s => match s with | .moduleDecl m => some m | _ => none)

def topLeaves (sf : SourceFileModel) : List StatementLeaf :=
  sf.statements.filterMap (fun s => match s with | .leaf l => some l | _ => none)

/-- Sequence a generator over a list, concatenating outputs and threading
state (an `output +=` loop with exception propagation). -/
def foldE (f : GenState → α → Except Str (Str × GenState)) (l : List α)
    (st : GenState) : Except Str (Str × GenState) :=
  match l with
  | [] => .ok ([], st)
  | x :: xs => do
    let r1 ← f st x
    let r2 ← foldE f xs r1.2
    .ok (r1.1 ++ r2.1, r2.2)

/-- `tykon` from src/generator.ts: one container's output, in the fixed order
variables, functions, classes, interfaces, type aliases. -/
def tykon (cfg : TykonConfig) (src : List StatementLeaf) (st : GenState) :
    Except Str (Str × GenState) := do
  let nl := nlOf cfg
  let header := "package ".data ++ cfg.pkgName ++ nl ++ nl
  let importsPart :=
    match cfg.imports with
    | some imps =>
      if imps.length > 0 then
        (imps.foldl (fun acc imp =>
          let imp0 := trimWS imp
          if imp0 = [] then acc
          else acc ++ "import ".data ++ imp0 ++ nl) []) ++ "\n".data
      else []
    | none => []
  let vOut ← foldE (fun st v =>
    foldE (fun st d => do
      let r ← generateVariable cfg v d st
      .ok (r.1 ++ nl, r.2)) v.decls st) (getVariableStatements src) st
  let fOut ← foldE (fun st f => generateFunction cfg f st)
    ((getFunctions src).filter isAmbientF) vOut.2
  let cOut ← foldE (fun st c => generateClass cfg c st)
    ((getClasses src).filter isAmbientC) fOut.2
  let iOut ← foldE (fun st i => generateInterface cfg i st)
    ((getInterfaces src).filter isAmbientI) cOut.2
  let aOut ← foldE (fun st a => generateTypeAlias cfg a st)
    ((getTypeAliases src).filter isAmbientT) iOut.2
  .ok (header ++ importsPart ++ vOut.1 ++ fOut.1 ++ cOut.1 ++ iOut.1 ++ aOut.1, aOut.2)

/-- `tykonFromModule` from src/generator.ts.  The config object is mutated in
the source (`config.imports.push`), so the possibly-updated config is
returned.  Note: this revision does NOT clear `currentConstants`. -/
def tykonFromModule (cfg : TykonConfig) (m : ModuleDecl) (st : GenState) :
    Except Str (Str × TykonConfig × GenState) := do
  let cfg1 := match cfg.imports with
    | none => { cfg with imports := some ["kotlin.js.*".data] }
    | some _ => cfg
  let moduleName :=
    if startsW m.name [dquote] && endsW m.name [dquote] then
      (m.name.drop 1).take (m.name.length - 2)
    else m.name
  let nl := nlOf cfg1
  let pre := "// Module: ".data ++ moduleName ++ nl
    ++ "@file:JsModule(\"".data ++ moduleName ++ "\")".data ++ nl
  let body ← tykon cfg1 m.statements st
  .ok (pre ++ body.1, cfg1, body.2)

/-- `getValidFileName` from src/generator.ts. -/
def getValidFileName (moduleName : Str) : Str :=
  let m :=
    if startsW moduleName [dquote] && endsW moduleName [dquote] then
      (moduleName.drop 1).take (moduleName.length - 2)
    else moduleName
  let f := (m.map Char.toLower).map (fun c => if c = ':' then '-' else c)
  let f2 := f.filter (fun c => ('a' ≤ c && c ≤ 'z') || c.isDigit || c = '_' || c = '-')
  (f2.reverse.dropWhile (fun c => c = '-')).reverse

/-- `generateStatement` from src/generator.ts. -/
def generateStatement (cfg : TykonConfig) (s : StatementLeaf) (st : GenState) :
    Except Str (Str × GenState) := do
  let nl := nlOf cfg
  match s with
  | .varStmt v =>
    foldE (fun st d => do
      let r ← generateVariable cfg v d st
      .ok (r.1 ++ nl, r.2)) v.decls st
  | .funcDecl f => do
    let r ← generateFunction cfg f st
    .ok (r.1 ++ nl, r.2)
  | .classDecl c => do
    let r ← generateClass cfg c st
    .ok (r.1 ++ nl, r.2)
  | .ifaceDecl i => do
    let r ← generateInterface cfg i st
    .ok (r.1 ++ nl, r.2)
  | .aliasDecl a => do
    let r ← generateTypeAlias cfg a st
    .ok (r.1 ++ nl, r.2)

def runModules (baseName : Str) : TykonConfig → List ModuleDecl →
    List (Str × Str) → GenState → Except Str (List (Str × Str) × TykonConfig × GenState)
  | cfg, [], outs, st => .ok (outs, cfg, st)
  | cfg, m :: rest, outs, st => do
    let header := "// Generated by Tykon from ".data ++ baseName ++ nlOf cfg
    let r ← tykonFromModule cfg m st
    runModules baseName r.2.1 rest
      (setAssoc outs (getValidFileName m.name ++ ".d.kt".data) (header ++ r.1)) r.2.2

/-- `tykonFromSource` from src/generator.ts: the per-unit orchestrator
producing the artifact-name → content map (as an insertion-ordered
association list), plus the mutated config and final state. -/
def tykonFromSource (cfg : TykonConfig) (sf : SourceFileModel) (st : GenState) :
    Except Str (List (Str × Str) × TykonConfig × GenState) := do
  let nl := nlOf cfg
  let rootModule :=
    let fallback := afterLastChar
      (if endsW sf.filePath (".d.ts".data) then sf.filePath.take (sf.filePath.length - 5)
       else sf.filePath) '/'
    match cfg.modName with
    | some m => if m = [] then fallback else m
    | none => fallback
  let baseName := sf.baseName
  let modules := getModules sf
  let cfg1 := match cfg.imports with
    | none => { cfg with imports := some ["kotlin.js.*".data] }
    | some _ => cfg
  let res ←
    if modules.length > 0 then do
      let mres ← runModules baseName cfg1 modules [] st
      let top := topLeaves sf
      if top.length > 0 then do
        let importsPart :=
          match mres.2.1.imports with
          | some imps =>
            imps.foldl (fun acc imp =>
              let imp0 := trimWS imp
              if imp0 = [] then acc
              else acc ++ "import ".data ++ imp0 ++ nl) []
          | none => []
        let body ← foldE (fun st s => generateStatement mres.2.1 s st) top mres.2.2
        let output := "// Generated by Tykon from ".data ++ baseName ++ nl ++ nl
          ++ "@file:JsModule(\"".data ++ rootModule ++ "\")".data ++ nl
          ++ "@file:JsNonModule".data ++ nl ++ nl
          ++ "package ".data ++ mres.2.1.pkgName ++ nl ++ nl
          ++ importsPart ++ body.1
        .ok (setAssoc mres.1 (getValidFileName sf.baseNameNoExt ++ ".d.kt".data) output,
             mres.2.1, body.2)
      else .ok mres
    else do
      let body ← tykon cfg1 (topLeaves sf) st
      let output := "// Generated by Tykon from ".data ++ baseName ++ nl ++ nl
        ++ "@file:JsModule(\"".data ++ rootModule ++ "\")".data ++ nl ++ nl ++ body.1
      .ok ([(getValidFileName sf.baseNameNoExt ++ ".d.kt".data, output)], cfg1, body.2)
  let typeAliasOutput := joinSep [] res.2.2.aliasBuf
  if typeAliasOutput ≠ [] then
    let output := "// Type Aliases from ".data ++ baseName ++ nl ++ nl
      ++ "package ".data ++ res.2.1.pkgName ++ nl ++ nl ++ typeAliasOutput
    .ok (setAssoc res.1 (getValidFileName sf.baseNameNoExt ++ ".types.d.kt".data) output,
         res.2.1, { res.2.2 with aliasBuf := [] })
  else .ok res

end Tykon

namespace Tykon

/-! ### Observation helpers and concrete scenarios used by the theorems -/

/-- Output of a generator run (empty marker on the error path). -/
def getOutE (e : Except Str (Str × GenState)) : Str :=
  match e with
  | .ok r => r.1
  | .error _ => []

/-- Artifact map of a `tykonFromSource` run. -/
def getOutsM (e : Except Str (List (Str × Str) × TykonConfig × GenState)) :
    List (Str × Str) :=
  match e with
  | .ok r => r.1
  | .error _ => []

/-- Final generator state of a `tykonFromModule` run. -/
def stateOfM (e : Except Str (Str × TykonConfig × GenState)) : GenState :=
  match e with
  | .ok r => r.2.2
  | .error _ => ⟨[], 0, []⟩

def tbpFuel : Nat → Str → Nat
  | 0, _ => 0
  | n + 1, s =>
    if endsW s (("[]").data) then tbpFuel n (s.take (s.length - 2)) + 1 else 0

/-- Number of trailing `[]` bracket pairs of a type text (the quantity the
spec's wrapping-depth law counts). -/
def trailingBracketPairs (s : Str) : Nat := tbpFuel s.length s

def lalFuel : Nat → Str → Nat
  | 0, _ => 0
  | n + 1, s =>
    if startsW s (("Array<").data) then lalFuel n (s.drop 6) + 1 else 0

/-- Number of nested `Array<` wrapper layers at the head of a mapped type. -/
def leadingArrayLayers (s : Str) : Nat := lalFuel s.length s

/-- Fresh generator state (empty constant table, counter 0, empty alias
buffer). -/
def st0 : GenState := ⟨[], 0, []⟩

/-- A minimal configuration: package `com.example`, all defaults. -/
def cfg1 : TykonConfig := ⟨none, none, ("com.example").data, none, none, none⟩

/-- An ambient class `Foo` with a single string property `a`. -/
def fooClass : ClassDecl :=
  ⟨false, true, ("Foo").data, false, [], none, [],
   [⟨("a").data, false, false, ("string").data, false, false, false, []⟩], [], none, []⟩

/-- An ambient interface `Foo` with a single string property `b`. -/
def fooIface : InterfaceDecl :=
  ⟨false, true, ("Foo").data, [], some [[]], [],
   [⟨("b").data, false, false, ("string").data, false, false, false, []⟩], [], none, []⟩

/-- A unit containing a class and an interface that share the resolved name
`Foo` (the C1 scenario). -/
def unit1 : List StatementLeaf := [.classDecl fooClass, .ifaceDecl fooIface]

/-- The output the code actually produces for `unit1`: the class and the
interface are both emitted, each with only its own member. -/
def c1expected : Str :=
  ("package com.example\n\nopen external class Foo \x7b\n    var a: String\n\n\x7d\nexternal interface Foo \x7b\n    var b: String\n\n\x7d\n").data

/-- An ambient interface `Foo` (property `a`) for the module container of the
C2 scenario. -/
def fooIfaceM : InterfaceDecl :=
  ⟨false, true, ("Foo").data, [], some [[]], [],
   [⟨("a").data, false, false, ("string").data, false, false, false, []⟩], [], none, []⟩

def cfg2 : TykonConfig :=
  ⟨some (("mylib").data), none, ("com.example").data, none, none, none⟩

/-- A source file `lib.d.ts` declaring interface `Foo` both inside the named
module `"mymod"` and at the root container (the C2 scenario). -/
def sf2 : SourceFileModel :=
  ⟨("/x/lib.d.ts").data, ("lib.d.ts").data, ("lib.d").data,
   [.moduleDecl ⟨("\"mymod\"").data, [.ifaceDecl fooIfaceM]⟩,
    .leaf (.ifaceDecl fooIface)]⟩

def c2moduleOut : Str :=
  ("// Generated by Tykon from lib.d.ts\n// Module: mymod\n@file:JsModule(\"mymod\")\npackage com.example\n\nimport kotlin.js.*\n\nexternal interface Foo \x7b\n    var a: String\n\n\x7d\n").data

def c2rootOut : Str :=
  ("// Generated by Tykon from lib.d.ts\n\n@file:JsModule(\"mylib\")\n@file:JsNonModule\n\npackage com.example\n\nimport kotlin.js.*\nexternal interface Foo \x7b\n    var b: String\n\n\x7d\n\n").data

/-- A method named `f` with the given parameters and return type. -/
def fMethod (ps : List ParamDecl) (ret : Str) : MethodDecl :=
  ⟨("f").data, false, ps, ret, [], []⟩

/-- Three methods sharing the name `f` but with different parameter shapes
(the C4 claim's scenario). -/
def view4 : ClassLikeView :=
  ⟨true, [],
   [fMethod [] (("void").data),
    fMethod [⟨("x").data, ("string").data, false, false, []⟩] (("void").data),
    fMethod [⟨("x").data, ("number").data, false, false, []⟩] (("void").data)],
   0, [], none⟩

def c4outA : Str :=
  ("    fun f()\n\n    fun f(x: String)\n\n    fun f(x: Double)\n\n").data

/-- Three methods sharing name `f` AND parameter shape, differing only in
return type (the case the code actually collapses). -/
def view4b : ClassLikeView :=
  ⟨true, [],
   [fMethod [⟨("x").data, ("string").data, false, false, []⟩] (("number").data),
    fMethod [⟨("x").data, ("string").data, false, false, []⟩] (("string").data),
    fMethod [⟨("x").data, ("string").data, false, false, []⟩] (("boolean").data)],
   0, [], none⟩

def c4outB : Str := ("    fun f(x: String): dynamic\n\n").data

/-- An ambient class `C` with a type parameter `T` whose declared default is
exactly `never` (the C5 scenario). -/
def c5class : ClassDecl :=
  ⟨false, true, ("C").data, false, [⟨("T").data, none, some (("never").data)⟩],
   none, [], [], [], none, []⟩

def c5out : Str := ("open external class C<T> \x7b\n\x7d\n").data

def mapTPDefault (f : Option Str → Option Str) (tp : TypeParamDecl) : TypeParamDecl :=
  { tp with defaultText := f tp.defaultText }

def mapMethodDefaults (f : Option Str → Option Str) (m : MethodDecl) : MethodDecl :=
  { m with typeParams := m.typeParams.map (mapTPDefault f) }

/-- Rewrite every type-parameter default of a class (class-level and
method-level) leaving every other attribute untouched. -/
def mapClassDefaults (f : Option Str → Option Str) (c : ClassDecl) : ClassDecl :=
  { c with typeParams := c.typeParams.map (mapTPDefault f),
           methods := c.methods.map (mapMethodDefaults f) }

/-- A module whose only declaration is a variable of string-literal type
`"a"`, which populates the constant table while it is mapped (the C6
scenario). -/
def mod6 : ModuleDecl :=
  ⟨("m1").data, [.varStmt ⟨false, true, [], [⟨("v").data, ("\"a\"").data⟩]⟩]⟩

/-- A variable statement that is NOT ambient (no `declare` keyword, not in an
ambient context), used for the C7 scenario. -/
def vstmt7 : VariableStatement := ⟨false, false, [], [⟨("x").data, ("string").data⟩]⟩

def vdecl7 : VariableDecl := ⟨("x").data, ("string").data⟩

/-- A variable statement carrying the `declare` keyword. -/
def vstmt7d : VariableStatement := ⟨true, true, [], [⟨("x").data, ("string").data⟩]⟩

/-- Non-ambient declarations of each kind for the C7 witness. -/
def f7nc : FunctionDecl := ⟨false, false, ("g").data, [], ("void").data, [], []⟩

def c7nc : ClassDecl := ⟨false, false, ("G").data, false, [], none, [], [], [], none, []⟩

def i7nc : InterfaceDecl := ⟨false, false, ("G").data, [], none, [], [], [], none, []⟩

def emptyAliasType : AliasTypeModel :=
  ⟨("x").data, false, [], false, none, true, false, false, none, []⟩

def a7nc : TypeAliasDecl := ⟨false, false, ("G").data, [], emptyAliasType, []⟩

/-- Bracket-computed-name declarations for the C10 witness. -/
def c10k : ClassDecl := ⟨false, true, ("[K]").data, false, [], none, [], [], [], none, []⟩

def i10k : InterfaceDecl := ⟨false, true, ("[K]").data, [], none, [], [], [], none, []⟩

def a10k : TypeAliasDecl := ⟨false, true, ("[K]").data, [], emptyAliasType, []⟩

def f10k : FunctionDecl := ⟨false, true, ("[K]").data, [], ("void").data, [], []⟩

def v10stmt : VariableStatement := ⟨false, true, [], [⟨("[K]").data, ("string").data⟩]⟩

def v10k : VariableDecl := ⟨("[K]").data, ("string").data⟩

def p10k : PropDecl := ⟨("[K]").data, false, false, ("string").data, false, false, false, []⟩

def m10k : MethodDecl := ⟨("[K]").data, false, [], ("void").data, [], []⟩

def vw10p : ClassLikeView := ⟨true, [p10k], [], 0, [], none⟩

def vw10m : ClassLikeView := ⟨true, [], [m10k], 0, [], none⟩

end Tykon

namespace Tykon

/-! ### Helper lemmas -/

/-- A bracket-delimited name whose text is not in the constant table resolves
to the original text prefixed with `__` and leaves the state unchanged. -/
theorem findName_bracket (name : Str) (st : GenState)
    (h1 : startsW name (("[").data) = true) (h2 : endsW name (("]").data) = true)
    (h3 : lookupStr st.constants name = none) :
    findName (some name) st = (("__").data ++ name, st) := by
  cases name with
  | nil => simp [startsW] at h1
  | cons c rest =>
    have hc : c = '[' := by
      simp [startsW] at h1
      exact h1
    subst hc
    have hb : startsW ('[' :: rest) [lbrace] = false := rfl
    simp [findName, hb, h1, h2, h3]

theorem not_mem_doNotExpose (n : Str) : ('_' :: '_' :: n) ∉ doNotExpose := by
  intro h
  simp [doNotExpose] at h

theorem startsW_uu (n : Str) : startsW ('_' :: '_' :: n) ('_' :: '_' :: []) = true := by
  simp [startsW]

theorem gc_bracket (cfg : TykonConfig) (c : ClassDecl) (st : GenState)
    (hn : startsW c.name (("[").data) = true) (he : endsW c.name (("]").data) = true)
    (h3 : lookupStr st.constants c.name = none) (ha : isAmbientC c = true) :
    generateClass cfg c st = .ok ([], st) := by
  simp [generateClass, ha, findName_bracket c.name st hn he h3, not_mem_doNotExpose,
    startsW_uu]

theorem gi_bracket (cfg : TykonConfig) (i : InterfaceDecl) (st : GenState)
    (hn : startsW i.name (("[").data) = true) (he : endsW i.name (("]").data) = true)
    (h3 : lookupStr st.constants i.name = none) (ha : isAmbientI i = true) :
    generateInterface cfg i st = .ok ([], st) := by
  simp [generateInterface, ha, findName_bracket i.name st hn he h3, not_mem_doNotExpose,
    startsW_uu]

theorem gt_bracket (cfg : TykonConfig) (a : TypeAliasDecl) (st : GenState)
    (hn : startsW a.name (("[").data) = true) (he : endsW a.name (("]").data) = true)
    (h3 : lookupStr st.constants a.name = none) (ha : isAmbientT a = true) :
    generateTypeAlias cfg a st = .ok ([], st) := by
  simp [generateTypeAlias, ha, findName_bracket a.name st hn he h3, not_mem_doNotExpose,
    startsW_uu]

theorem gf_bracket (cfg : TykonConfig) (f : FunctionDecl) (st : GenState)
    (hn : startsW f.name (("[").data) = true) (he : endsW f.name (("]").data) = true)
    (h3 : lookupStr st.constants f.name = none) (ha : isAmbientF f = true) :
    generateFunction cfg f st = .ok ([], st) := by
  by_cases hd : f.declareKeyword = true
  · simp [generateFunction, hd]
  · simp at hd
    simp [generateFunction, hd, ha, findName_bracket f.name st hn he h3, startsW_uu]

theorem gv_bracket (cfg : TykonConfig) (v : VariableStatement) (d : VariableDecl)
    (st : GenState)
    (hn : startsW d.name (("[").data) = true) (he : endsW d.name (("]").data) = true)
    (h3 : lookupStr st.constants d.name = none) :
    generateVariable cfg v d st = .ok ([], st) := by
  by_cases hd : v.declareKeyword = true
  · simp [generateVariable, hd]
  · simp at hd
    simp [generateVariable, hd, findName_bracket d.name st hn he h3, startsW_uu]

theorem cp_bracket (cfg : TykonConfig) (vw : ClassLikeView) (p : PropDecl) (st : GenState)
    (hn : startsW p.name (("[").data) = true) (he : endsW p.name (("]").data) = true)
    (h3 : lookupStr st.constants p.name = none) (hp : vw.props = [p]) :
    createProperties cfg vw st = ([], st) := by
  by_cases hs : p.static = true
  · simp [createProperties, hp, hs]
  · simp at hs
    simp [createProperties, hp, hs, findName_bracket p.name st hn he h3, startsW_uu]

theorem cm_bracket (cfg : TykonConfig) (vw : ClassLikeView) (m : MethodDecl) (st : GenState)
    (hn : startsW m.name (("[").data) = true) (he : endsW m.name (("]").data) = true)
    (h3 : lookupStr st.constants m.name = none) (hm : vw.methods = [m]) :
    createMethods cfg vw st = ([], st) := by
  by_cases hs : m.static = true
  · simp [createMethods, createMethodsPhase1, hm, hs]
  · simp at hs
    simp [createMethods, createMethodsPhase1, hm, hs,
      findName_bracket m.name st hn he h3, startsW_uu]

theorem mapTPDefault_name (f : Option Str → Option Str) (tp : TypeParamDecl) :
    (mapTPDefault f tp).name = tp.name := rfl

theorem mapTPDefault_constraint (f : Option Str → Option Str) (tp : TypeParamDecl) :
    (mapTPDefault f tp).constraint = tp.constraint := rfl

/-! ### Claim theorems -/

/-- C1, counterexample: in a unit containing an ambient class `Foo` and an
ambient interface `Foo`, the emitted output contains TWO declarations for the
name — an interface-form declaration is present next to the class — so the
output does not consist of exactly one class-form declaration with the merged
members. -/
theorem claim1_counterexample :
    countSub (getOutE (tykon cfg1 unit1 st0)) (("external ").data) = 2
    ∧ countSub (getOutE (tykon cfg1 unit1 st0)) (("external interface Foo").data) = 1
    ∧ countSub (getOutE (tykon cfg1 unit1 st0)) (("external class Foo").data) = 1 := by
  exact ⟨rfl, rfl, rfl⟩

/-- C1, amended: `tykon` has no class/interface merge logic: a unit with a
class and an interface sharing the resolved name `Foo` emits both
declarations separately, the class holding only the class's members and the
interface only the interface's members (exact output shown). -/
theorem claim1_merge_amended :
    tykon cfg1 unit1 st0 = .ok (c1expected, st0) := by
  rfl

/-- C2, counterexample: with interface `Foo` declared both in module
`"mymod"` and at the root container, BOTH emitted artifacts contain a
declaration of `Foo` — no container skips it, contradicting single-owner
emission. -/
theorem claim2_counterexample :
    containsSub ((lookupStr (getOutsM (tykonFromSource cfg2 sf2 st0))
        (("mymod.d.kt").data)).getD []) (("external interface Foo").data) = true
    ∧ containsSub ((lookupStr (getOutsM (tykonFromSource cfg2 sf2 st0))
        (("libd.d.kt").data)).getD []) (("external interface Foo").data) = true := by
  exact ⟨rfl, rfl⟩

/-- C2, amended: `tykonFromSource` has no ownership logic: every container
emits every name it declares, so a name declared in two containers appears in
both containers' artifacts (exact outputs shown). -/
theorem claim2_ownership_amended :
    tykonFromSource cfg2 sf2 st0 =
      .ok ([((("mymod.d.kt").data), c2moduleOut), ((("libd.d.kt").data), c2rootOut)],
           { cfg2 with imports := some [(("kotlin.js.*").data)] }, st0) := by
  rfl

/-- C3: mapping `string | undefined` and `string | null` does NOT produce the
nullable string form: because the union members are converted before the
`undefined`/`null` check, both yield `dynamic /* String | Unit */`.  The
heterogeneous union `string | number` yields the dynamic fallback, but its
trailing comment carries the converted member list, not the original union
text. -/
theorem claim3_nullable_code_bug :
    convertToKotlinType (("string | undefined").data) false false []
      = ((("dynamic /* String | Unit */").data), [])
    ∧ convertToKotlinType (("string | null").data) false false []
      = ((("dynamic /* String | Unit */").data), [])
    ∧ convertToKotlinType (("string | number").data) false false []
      = ((("dynamic /* String | Double */").data), []) := by
  exact ⟨rfl, rfl, rfl⟩

/-- C4, counterexample: three methods sharing the resolved name `f` but with
different parameter shapes are rendered as THREE separate members and none is
collapsed to the dynamic marker. -/
theorem claim4_counterexample :
    createMethods cfg1 view4 st0 = (c4outA, st0)
    ∧ countSub c4outA (("fun f").data) = 3
    ∧ containsSub c4outA (("dynamic").data) = false := by
  exact ⟨rfl, rfl, rfl⟩

/-- C4, amended: the collapse is keyed on the full normalised signature text
(name plus parameter list, with the first default marker and star-to-star
comment spans stripped): three overloads of `f` with identical parameters and
differing return types are collapsed into exactly one member typed
`dynamic`, rendered once. -/
theorem claim4_overload_collapse_amended :
    createMethods cfg1 view4b st0 = (c4outB, st0)
    ∧ countSub c4outB (("fun f").data) = 1
    ∧ countSub c4outB (("dynamic").data) = 1 := by
  exact ⟨rfl, rfl, rfl⟩

/-- C5, counterexample: a class with a single type parameter `T` whose
declared default is exactly `never` still renders `T` in the emitted generic
parameter list (`class C<T>`): no never-default filtering exists. -/
theorem claim5_counterexample :
    c5class.typeParams.map (fun tp => tp.defaultText) = [some (("never").data)]
    ∧ generateClass cfg1 c5class st0 = .ok (c5out, st0)
    ∧ containsSub c5out (("C<T>").data) = true := by
  exact ⟨rfl, rfl, rfl⟩

/-- C5, amended: the class emitter never reads type-parameter defaults at
all: rewriting every default (class-level and method-level) in an arbitrary
way leaves `generateClass`'s output unchanged, so parameters with default
`never` are emitted like any other. -/
theorem claim5_defaults_ignored (f : Option Str → Option Str) (cfg : TykonConfig)
    (c : ClassDecl) (st : GenState) :
    generateClass cfg (mapClassDefaults f c) st = generateClass cfg c st := by
  simp [generateClass, mapClassDefaults, mapMethodDefaults, isAmbientC, classView,
    createMethods, createMethodsPhase1, createProperties, createStaticProperties,
    List.foldl_map, List.map_map, List.filter_map, Function.comp_def,
    mapTPDefault_name, mapTPDefault_constraint]

/-- C6: `tykonFromModule` does not clear the constant table at the module
boundary: after processing a module whose declaration maps the string-literal
type `"a"`, the table still holds the recorded literal, so it is visible to
any subsequently processed module. -/
theorem claim6_constants_not_cleared :
    (stateOfM (tykonFromModule cfg1 mod6 st0)).constants
      = [((("\"a\"").data), (("a").data))]
    ∧ (stateOfM (tykonFromModule cfg1 mod6 st0)).constants ≠ [] := by
  exact ⟨rfl, by decide⟩

/-- C7, counterexample: the Variable emitter does NOT silently skip a
non-ambient variable: for a variable statement with no `declare` keyword and
outside any ambient context it produces full output (`external val x:
String`), not empty output. -/
theorem claim7_counterexample :
    isAmbientV vstmt7 = false
    ∧ generateVariable cfg1 vstmt7 vdecl7 st0
        = .ok ((("external val x: String\n").data), st0) := by
  exact ⟨rfl, rfl⟩

/-- C7, amended: the Function, Class, Interface and TypeAlias emitters throw
on any non-ambient declaration; the Variable emitter never throws, and it
silently produces no output exactly for statements carrying the `declare`
keyword (not for non-ambient statements, which are emitted normally). -/
theorem claim7_emitters_amended :
    (∀ (cfg : TykonConfig) (f : FunctionDecl) (st : GenState), isAmbientF f = false →
      generateFunction cfg f st = .error (("Only ambient functions are supported").data))
    ∧ (∀ (cfg : TykonConfig) (c : ClassDecl) (st : GenState), isAmbientC c = false →
      generateClass cfg c st = .error (("Only ambient classes are supported").data))
    ∧ (∀ (cfg : TykonConfig) (i : InterfaceDecl) (st : GenState), isAmbientI i = false →
      generateInterface cfg i st
        = .error (("Only ambient interfaces are supported").data))
    ∧ (∀ (cfg : TykonConfig) (a : TypeAliasDecl) (st : GenState), isAmbientT a = false →
      generateTypeAlias cfg a st
        = .error (("Only ambient type aliases are supported").data))
    ∧ (∀ (cfg : TykonConfig) (v : VariableStatement) (d : VariableDecl) (st : GenState),
      (generateVariable cfg v d st).isOk = true)
    ∧ (∀ (cfg : TykonConfig) (v : VariableStatement) (d : VariableDecl) (st : GenState),
      v.declareKeyword = true → generateVariable cfg v d st = .ok ([], st)) := by
  refine ⟨?_, ?_, ?_, ?_, ?_, ?_⟩
  · intro cfg f st h
    have h2 : f.declareKeyword = false := by
      simp [isAmbientF] at h
      exact h.1
    simp [generateFunction, h2, h]
  · intro cfg c st h
    simp [generateClass, h]
  · intro cfg i st h
    simp [generateInterface, h]
  · intro cfg a st h
    simp [generateTypeAlias, h]
  · intro cfg v d st
    simp only [generateVariable]
    by_cases hd : v.declareKeyword = true
    · simp only [hd, if_true]
      rfl
    · simp only [hd, Bool.false_eq_true, if_false]
      split
      · rfl
      · split
        · rfl
        · rfl
  · intro cfg v d st h
    simp [generateVariable, h]

/-- C7, witness: the amended theorem applied at concrete declarations of
every kind. -/
theorem claim7_emitters_amended_witness :
    generateFunction cfg1 f7nc st0
      = .error (("Only ambient functions are supported").data)
    ∧ generateClass cfg1 c7nc st0 = .error (("Only ambient classes are supported").data)
    ∧ generateInterface cfg1 i7nc st0
      = .error (("Only ambient interfaces are supported").data)
    ∧ generateTypeAlias cfg1 a7nc st0
      = .error (("Only ambient type aliases are supported").data)
    ∧ (generateVariable cfg1 vstmt7 vdecl7 st0).isOk = true
    ∧ generateVariable cfg1 vstmt7d vdecl7 st0 = .ok ([], st0) := by
  obtain ⟨h1, h2, h3, h4, h5, h6⟩ := claim7_emitters_amended
  exact ⟨h1 cfg1 f7nc st0 (by decide), h2 cfg1 c7nc st0 (by decide),
    h3 cfg1 i7nc st0 (by decide), h4 cfg1 a7nc st0 (by decide),
    h5 cfg1 vstmt7 vdecl7 st0, h6 cfg1 vstmt7d vdecl7 st0 (by decide)⟩

/-- C8, counterexample: the wrapping-depth law does not hold for every source
type text: the fixed-arity tuple `[string, string]` has zero trailing bracket
pairs yet maps to one array-wrapper layer (`Array<String>`). -/
theorem claim8_counterexample :
    convertToKotlinType (("[string, string]").data) false false []
      = ((("Array<String>").data), [])
    ∧ trailingBracketPairs (("[string, string]").data) = 0
    ∧ leadingArrayLayers (("Array<String>").data) = 1 := by
  exact ⟨rfl, rfl, rfl⟩

/-- C8, amended: for a trailing-bracket type over a primitive base the
wrapper depth equals the number of trailing `[]` pairs (shown at depths 1, 2
and 3: `string[][][]` maps to three nested wrappers around `String`), and
re-mapping an already-mapped result returns it unchanged, adding no wrapper
layer. -/
theorem claim8_array_wrapping_amended :
    convertToKotlinType (("string[]").data) false false []
      = ((("Array<String>").data), [])
    ∧ convertToKotlinType (("string[][]").data) false false []
      = ((("Array<Array<String>>").data), [])
    ∧ convertToKotlinType (("string[][][]").data) false false []
      = ((("Array<Array<Array<String>>>").data), [])
    ∧ leadingArrayLayers (("Array<Array<Array<String>>>").data) = 3
    ∧ convertToKotlinType (("Array<String>").data) false false []
      = ((("Array<String>").data), [])
    ∧ convertToKotlinType (("Array<Array<Array<String>>>").data) false false []
      = ((("Array<Array<Array<String>>>").data), []) := by
  exact ⟨rfl, rfl, rfl, rfl, rfl, rfl⟩

/-- C9: mapping the union of two string literals `"a" | "b"` returns exactly
the mapping of `string` (the target type `String`), and records both literal
values in the constant table. -/
theorem claim9_union_collapse :
    (convertToKotlinType (("\"a\" | \"b\"").data) false false []).1
      = (convertToKotlinType (("string").data) false false []).1
    ∧ (convertToKotlinType (("\"a\" | \"b\"").data) false false []).1 = (("String").data)
    ∧ lookupStr (convertToKotlinType (("\"a\" | \"b\"").data) false false []).2
        (("\"a\"").data) = some (("a").data)
    ∧ lookupStr (convertToKotlinType (("\"a\" | \"b\"").data) false false []).2
        (("\"b\"").data) = some (("b").data) := by
  exact ⟨rfl, rfl, rfl, rfl⟩

/-- C10: a bracket-delimited name absent from the constant table resolves to
the original bracketed text prefixed with `__`, and every emitter
(class, interface, type alias, function, variable, property, method) skips
such a declaration, producing no output and leaving the state unchanged. -/
theorem claim10_bracket_names (name : Str) (st : GenState)
    (h1 : startsW name (("[").data) = true) (h2 : endsW name (("]").data) = true)
    (h3 : lookupStr st.constants name = none) :
    findName (some name) st = (("__").data ++ name, st)
    ∧ (∀ (cfg : TykonConfig) (c : ClassDecl), c.name = name → isAmbientC c = true →
        generateClass cfg c st = .ok ([], st))
    ∧ (∀ (cfg : TykonConfig) (i : InterfaceDecl), i.name = name → isAmbientI i = true →
        generateInterface cfg i st = .ok ([], st))
    ∧ (∀ (cfg : TykonConfig) (a : TypeAliasDecl), a.name = name → isAmbientT a = true →
        generateTypeAlias cfg a st = .ok ([], st))
    ∧ (∀ (cfg : TykonConfig) (f : FunctionDecl), f.name = name → isAmbientF f = true →
        generateFunction cfg f st = .ok ([], st))
    ∧ (∀ (cfg : TykonConfig) (v : VariableStatement) (d : VariableDecl), d.name = name →
        generateVariable cfg v d st = .ok ([], st))
    ∧ (∀ (cfg : TykonConfig) (vw : ClassLikeView) (p : PropDecl), p.name = name →
        vw.props = [p] → createProperties cfg vw st = ([], st))
    ∧ (∀ (cfg : TykonConfig) (vw : ClassLikeView) (m : MethodDecl), m.name = name →
        vw.methods = [m] → createMethods cfg vw st = ([], st)) := by
  refine ⟨findName_bracket name st h1 h2 h3, ?_, ?_, ?_, ?_, ?_, ?_, ?_⟩
  · intro cfg c hcn ha
    exact gc_bracket cfg c st (by rw [hcn]; exact h1) (by rw [hcn]; exact h2)
      (by rw [hcn]; exact h3) ha
  · intro cfg i hcn ha
    exact gi_bracket cfg i st (by rw [hcn]; exact h1) (by rw [hcn]; exact h2)
      (by rw [hcn]; exact h3) ha
  · intro cfg a hcn ha
    exact gt_bracket cfg a st (by rw [hcn]; exact h1) (by rw [hcn]; exact h2)
      (by rw [hcn]; exact h3) ha
  · intro cfg f hcn ha
    exact gf_bracket cfg f st (by rw [hcn]; exact h1) (by rw [hcn]; exact h2)
      (by rw [hcn]; exact h3) ha
  · intro cfg v d hcn
    exact gv_bracket cfg v d st (by rw [hcn]; exact h1) (by rw [hcn]; exact h2)
      (by rw [hcn]; exact h3)
  · intro cfg vw p hcn hp
    exact cp_bracket cfg vw p st (by rw [hcn]; exact h1) (by rw [hcn]; exact h2)
      (by rw [hcn]; exact h3) hp
  · intro cfg vw m hcn hm
    exact cm_bracket cfg vw m st (by rw [hcn]; exact h1) (by rw [hcn]; exact h2)
      (by rw [hcn]; exact h3) hm

/-- C10, witness: the theorem applied to the concrete name `[K]` with an
empty constant table, instantiated at a concrete declaration of every
kind. -/
theorem claim10_bracket_names_witness :
    findName (some (("[K]").data)) st0 = ((("__").data ++ ("[K]").data), st0)
    ∧ generateClass cfg1 c10k st0 = .ok ([], st0)
    ∧ generateInterface cfg1 i10k st0 = .ok ([], st0)
    ∧ generateTypeAlias cfg1 a10k st0 = .ok ([], st0)
    ∧ generateFunction cfg1 f10k st0 = .ok ([], st0)
    ∧ generateVariable cfg1 v10stmt v10k st0 = .ok ([], st0)
    ∧ createProperties cfg1 vw10p st0 = ([], st0)
    ∧ createMethods cfg1 vw10m st0 = ([], st0) := by
  obtain ⟨w1, w2, w3, w4, w5, w6, w7, w8⟩ :=
    claim10_bracket_names (("[K]").data) st0 (by decide) (by decide) (by decide)
  exact ⟨w1, w2 cfg1 c10k rfl (by decide), w3 cfg1 i10k rfl (by decide),
    w4 cfg1 a10k rfl (by decide), w5 cfg1 f10k rfl (by decide),
    w6 cfg1 v10stmt v10k rfl, w7 cfg1 vw10p p10k rfl rfl, w8 cfg1 vw10m m10k rfl rfl⟩

end Tykon
